import Mathlib

/-!
Verification of the text-analysis core of the AI Writing Assistant service
(`src/main.py`): the `analyze_text` pipeline, the `analyze_readability`
heuristic analyzer, and the `calculate_scores` aggregator, shallowly embedded
as pure Lean functions.  The fallible network call to the grammar service is
modelled by an explicit `GrammarOutcome` value (an HTTP response carrying a
status code and the parsed match list, or a raised exception), so
`analyze_text` becomes a pure function of the request text and that outcome.
The Python string builtins used by the code (`str.split` with and without an
argument, `str.strip`) are embedded as structural recursions over the
character list of the string, with Python's semantics.
-/

namespace WritingAssistant

/-- A span inside the analysed text: `position = {"start": ..., "end": ...}`
in the Python dictionaries built by `analyze_text` / `analyze_readability`. -/
structure Position where
  start : Nat
  «end» : Nat
  deriving Repr, DecidableEq

/-- One suggestion, as built by the pipeline (the `Suggestion` pydantic model:
`id`, `type`, `text`, `position`, `severity`, `category`). -/
structure Suggestion where
  id : Nat
  type : String
  text : String
  position : Position
  severity : String
  category : String
  deriving Repr, DecidableEq

/-- The score dictionary returned by `calculate_scores` (keys `grammar`,
`readability`, `tone`, `plagiarism`, `overall`). -/
structure Scores where
  grammar : Nat
  readability : Nat
  tone : Nat
  plagiarism : Nat
  overall : Nat
  deriving Repr, DecidableEq

/-- The `AnalysisResponse` model: a suggestion list plus the score bundle. -/
structure AnalysisResponse where
  suggestions : List Suggestion
  scores : Scores
  deriving Repr, DecidableEq

/-- One match from the LanguageTool JSON response.  Every field may be absent
(the `match.get(...)` and nested `rule` / `category` lookups in the Python
code), hence `Option`.  `categoryId` and `categoryName` are the `id` and
`name` entries of the match's rule category. -/
structure LTMatch where
  offset : Option Nat
  length : Option Nat
  message : Option String
  categoryId : Option String
  categoryName : Option String
  deriving Repr, DecidableEq

/-- Outcome of the `httpx` call to the LanguageTool API: either a response
(status code plus the parsed match list, which the code only reads when the
status is 200), or an exception raised during the call or while parsing. -/
inductive GrammarOutcome where
  | response (status : Nat) (matchList : List LTMatch)
  | exception
  deriving Repr, DecidableEq

/-- Drop leading whitespace characters, as Python `str.lstrip`. -/
def dropWs : List Char → List Char
  | [] => []
  | c :: rest => if c.isWhitespace then dropWs rest else c :: rest

/-- Python `s.strip()`: drop whitespace from both ends. -/
def pyStrip (s : String) : String :=
  ⟨dropWs ((dropWs s.data.reverse).reverse)⟩

/-- Python `s.split(sep)` for a single-character separator: split at every
occurrence of the separator, keeping empty segments. -/
def splitOnChar (sep : Char) : List Char → List (List Char)
  | [] => [[]]
  | c :: rest =>
    match splitOnChar sep rest with
    | [] => [[]]
    | seg :: segs => if c = sep then [] :: seg :: segs else (c :: seg) :: segs

/-- Python `s.split(sep)` for the two-character separator used by the code
(a blank line, two newline characters), matching leftmost-first. -/
def splitOnBlank : List Char → List (List Char)
  | [] => [[]]
  | [c] => [[c]]
  | c1 :: c2 :: rest =>
    if c1 = Char.ofNat 10 && c2 = Char.ofNat 10 then [] :: splitOnBlank rest
    else
      match splitOnBlank (c2 :: rest) with
      | [] => [[c1]]
      | seg :: segs => (c1 :: seg) :: segs

/-- Auxiliary for Python `s.split()`: split at every whitespace character,
keeping empty segments (the caller drops them). -/
def splitWsAux : List Char → List (List Char)
  | [] => [[]]
  | c :: rest =>
    match splitWsAux rest with
    | [] => [[]]
    | seg :: segs => if c.isWhitespace then [] :: seg :: segs else (c :: seg) :: segs

/-- Python `s.split()` with no argument: the non-empty maximal runs of
non-whitespace characters. -/
def pySplit (s : String) : List String :=
  ((splitWsAux s.data).map (fun l => String.mk l)).filter (fun t => t ≠ "")

/-- The sentence list `[s.strip() for s in text.split('.') if s.strip()]`:
non-empty trimmed period-delimited segments. -/
def sentencesOf (text : String) : List String :=
  ((splitOnChar (Char.ofNat 46) text.data).map
    (fun l => pyStrip (String.mk l))).filter (fun s => s ≠ "")

/-- The paragraph list built by splitting on blank lines:
non-empty trimmed blank-line-delimited segments. -/
def paragraphsOf (text : String) : List String :=
  ((splitOnBlank text.data).map
    (fun l => pyStrip (String.mk l))).filter (fun p => p ≠ "")

/-- Severity chosen for a grammar match from its rule category id
(lines 106-113 of `main.py`). -/
def severityOf (categoryId : Option String) : String :=
  if categoryId = some ("TYPOS") then "high"
  else if categoryId = some ("GRAMMAR") then "high"
  else if categoryId = some ("STYLE") then "low"
  else "medium"

/-- The suggestion dictionary appended for one LanguageTool match
(lines 115-125 of `main.py`). -/
def matchToSuggestion (id : Nat) (m : LTMatch) : Suggestion :=
  { id := id
  , type := "grammar"
  , text := m.message.getD ("Grammar issue found")
  , position := ⟨m.offset.getD 0, m.offset.getD 0 + m.length.getD 0⟩
  , severity := severityOf m.categoryId
  , category := m.categoryName.getD ("Grammar") }

/-- The loop over the matches of the LanguageTool response body: one grammar
suggestion per match, ids assigned from `startId` upwards. -/
def grammarSuggestions (startId : Nat) : List LTMatch → List Suggestion
  | [] => []
  | m :: rest => matchToSuggestion startId m :: grammarSuggestions (startId + 1) rest

/-- The fallback suggestion appended when the LanguageTool call raises
(lines 133-140 of `main.py`). -/
def fallbackSuggestion (id : Nat) : Suggestion :=
  { id := id
  , type := "info"
  , text := "Grammar check temporarily unavailable"
  , position := ⟨0, 0⟩
  , severity := "low"
  , category := "System" }

/-- Embedding of `analyze_readability` (lines 157-192 of `main.py`): at most
one long-sentence suggestion (some sentence with more than 25 words) and at
most one long-paragraph suggestion (some paragraph with more than 150 words),
ids assigned from `start_id`. -/
def analyze_readability (text : String) (start_id : Nat) : List Suggestion :=
  let sentences := sentencesOf text
  let long_sentences := sentences.filter (fun s => 25 < (pySplit s).length)
  let sentenceSuggs : List Suggestion :=
    if long_sentences = [] then []
    else
      [{ id := start_id
       , type := "readability"
       , text := "Consider breaking long sentences into shorter ones for better readability"
       , position := ⟨0, text.length⟩
       , severity := "medium"
       , category := "Readability" }]
  let current_id := if long_sentences = [] then start_id else start_id + 1
  let paragraphs := paragraphsOf text
  let long_paragraphs := paragraphs.filter (fun p => 150 < (pySplit p).length)
  let paragraphSuggs : List Suggestion :=
    if long_paragraphs = [] then []
    else
      [{ id := current_id
       , type := "readability"
       , text := "Consider breaking long paragraphs into smaller ones"
       , position := ⟨0, text.length⟩
       , severity := "low"
       , category := "Readability" }]
  sentenceSuggs ++ paragraphSuggs

/-- Embedding of `calculate_scores` (lines 194-236 of `main.py`).  The Python
float division `word_count / sentence_count` is modelled by exact rational
division. -/
def calculate_scores (text : String) (suggestions : List Suggestion) : Scores :=
  let word_count := (pySplit text).length
  let sentence_count := (sentencesOf text).length
  let grammar_errors :=
    (suggestions.filter (fun s => s.type == "grammar" && s.severity == "high")).length
  let grammar_score := max 60 (100 - grammar_errors * 8)
  let readability :=
    if 0 < sentence_count then
      let avg_sentence_length : ℚ := (word_count : ℚ) / (sentence_count : ℚ)
      if avg_sentence_length ≤ 15 then 95
      else if avg_sentence_length ≤ 20 then 85
      else if avg_sentence_length ≤ 25 then 75
      else 65
    else 50
  let tone_score := 85
  let plagiarism_score := 95
  { grammar := grammar_score
  , readability := readability
  , tone := tone_score
  , plagiarism := plagiarism_score
  , overall := (grammar_score + readability + tone_score + plagiarism_score) / 4 }

/-- The all-zero score bundle returned on the empty-text short circuit
(lines 75-84 of `main.py`). -/
def zeroScores : Scores := ⟨0, 0, 0, 0, 0⟩

/-- Embedding of the `analyze_text` endpoint body (lines 67-151 of `main.py`)
as a pure function of the request text and the grammar-service outcome.
Empty or whitespace-only text short-circuits.  On a 200 response each match
becomes a grammar suggestion and the id counter advances past them; on a
non-200 response nothing is appended (the status is only logged); on an
exception exactly the fallback suggestion is appended and — as in the source,
which does not increment `suggestion_id` after appending the fallback — the
id counter is NOT advanced.  Readability suggestions are then appended with
ids starting at the resulting counter, and scores are computed from the full
list. -/
def analyze_text (text : String) (outcome : GrammarOutcome) : AnalysisResponse :=
  if pyStrip text = "" then
    { suggestions := [], scores := zeroScores }
  else
    let step : List Suggestion × Nat :=
      match outcome with
      | .response status matchList =>
          if status = 200 then (grammarSuggestions 1 matchList, 1 + matchList.length)
          else ([], 1)
      | .exception => ([fallbackSuggestion 1], 1)
    let readability_suggestions := analyze_readability text step.2
    let suggestions := step.1 ++ readability_suggestions
    { suggestions := suggestions, scores := calculate_scores text suggestions }

/-! ### Helper lemmas -/

theorem mem_analyze_readability {t : String} {i : Nat} {s : Suggestion}
    (h : s ∈ analyze_readability t i) :
    s.type = "readability" ∧ s.category = "Readability" ∧
      s.position = ⟨0, t.length⟩ ∧ (s.severity = "medium" ∨ s.severity = "low") := by
  simp only [analyze_readability, List.mem_append] at h
  rcases h with h | h
  · split at h
    · simp at h
    · simp only [List.mem_singleton] at h
      subst h
      exact ⟨rfl, rfl, rfl, Or.inl rfl⟩
  · split at h
    · simp at h
    · simp only [List.mem_singleton] at h
      subst h
      exact ⟨rfl, rfl, rfl, Or.inr rfl⟩

theorem analyze_readability_filter_ne (t : String) (i : Nat) (ty : String)
    (h : ty ≠ "readability") :
    (analyze_readability t i).filter (fun s => s.type == ty) = [] := by
  rw [List.filter_eq_nil_iff]
  intro s hs
  have h1 := (mem_analyze_readability hs).1
  simp only [h1, beq_iff_eq]
  exact fun hh => h hh.symm

theorem mem_grammarSuggestions_type {i : Nat} {ms : List LTMatch} {s : Suggestion}
    (h : s ∈ grammarSuggestions i ms) : s.type = "grammar" := by
  induction ms generalizing i with
  | nil => simp [grammarSuggestions] at h
  | cons m rest ih =>
    simp only [grammarSuggestions, List.mem_cons] at h
    rcases h with h | h
    · subst h; rfl
    · exact ih h

theorem grammarSuggestions_length (i : Nat) (ms : List LTMatch) :
    (grammarSuggestions i ms).length = ms.length := by
  induction ms generalizing i with
  | nil => rfl
  | cons m rest ih => simp [grammarSuggestions, ih]

theorem grammarSuggestions_getElem? (i k : Nat) (ms : List LTMatch) :
    (grammarSuggestions i ms)[k]? = ms[k]?.map (fun m => matchToSuggestion (i + k) m) := by
  induction ms generalizing i k with
  | nil => simp [grammarSuggestions]
  | cons m rest ih =>
    cases k with
    | zero => simp [grammarSuggestions]
    | succ k =>
      simp only [grammarSuggestions, List.getElem?_cons_succ, ih]
      have : i + 1 + k = i + (k + 1) := by omega
      rw [this]

theorem grammar_score_bounds (text : String) (ss : List Suggestion) :
    60 ≤ (calculate_scores text ss).grammar ∧ (calculate_scores text ss).grammar ≤ 100 := by
  have hg : (calculate_scores text ss).grammar
      = max 60 (100 -
          (ss.filter (fun s => s.type == "grammar" && s.severity == "high")).length * 8) := rfl
  rw [hg]
  omega

theorem readability_score_cases (text : String) (ss : List Suggestion) :
    (calculate_scores text ss).readability = 50 ∨ (calculate_scores text ss).readability = 65 ∨
      (calculate_scores text ss).readability = 75 ∨ (calculate_scores text ss).readability = 85 ∨
      (calculate_scores text ss).readability = 95 := by
  have hr : (calculate_scores text ss).readability
      = (if 0 < (sentencesOf text).length then
          if ((pySplit text).length : ℚ) / ((sentencesOf text).length : ℚ) ≤ 15 then 95
          else if ((pySplit text).length : ℚ) / ((sentencesOf text).length : ℚ) ≤ 20 then 85
          else if ((pySplit text).length : ℚ) / ((sentencesOf text).length : ℚ) ≤ 25 then 75
          else 65
        else 50) := rfl
  rw [hr]
  split
  · split
    · simp
    · split
      · simp
      · split <;> simp
  · simp

theorem calculate_scores_bundle_bounds (text : String) (ss : List Suggestion) :
    60 ≤ (calculate_scores text ss).grammar ∧ (calculate_scores text ss).grammar ≤ 100 ∧
      50 ≤ (calculate_scores text ss).readability ∧ (calculate_scores text ss).readability ≤ 100 ∧
      (calculate_scores text ss).tone = 85 ∧ (calculate_scores text ss).plagiarism = 95 ∧
      72 ≤ (calculate_scores text ss).overall ∧ (calculate_scores text ss).overall ≤ 100 := by
  obtain ⟨hg1, hg2⟩ := grammar_score_bounds text ss
  have hrc := readability_score_cases text ss
  have hr1 : 50 ≤ (calculate_scores text ss).readability := by rcases hrc with h | h | h | h | h <;> omega
  have hr2 : (calculate_scores text ss).readability ≤ 100 := by rcases hrc with h | h | h | h | h <;> omega
  have ho : (calculate_scores text ss).overall
      = ((calculate_scores text ss).grammar + (calculate_scores text ss).readability + 85 + 95) / 4 := rfl
  exact ⟨hg1, hg2, hr1, hr2, rfl, rfl, by omega, by omega⟩

theorem mem_grammarSuggestions_span {i : Nat} {ms : List LTMatch} {s : Suggestion}
    (h : s ∈ grammarSuggestions i ms) : s.position.start ≤ s.position.«end» := by
  induction ms generalizing i with
  | nil => simp [grammarSuggestions] at h
  | cons m rest ih =>
    simp only [grammarSuggestions, List.mem_cons] at h
    rcases h with h | h
    · subst h
      exact Nat.le_add_right _ _
    · exact ih h

theorem severityOf_claim_form (cid : Option String) :
    severityOf cid
      = (if cid = some ("TYPOS") ∨ cid = some ("GRAMMAR") then "high"
         else if cid = some ("STYLE") then "low" else "medium") := by
  unfold severityOf
  by_cases h1 : cid = some ("TYPOS")
  · simp [h1]
  · by_cases h2 : cid = some ("GRAMMAR")
    · simp [h1, h2]
    · simp [h1, h2]

theorem filter_nil_not_exists {α : Type} {p : α → Bool} {l : List α}
    (h : l.filter p = []) : ¬ ∃ x ∈ l, p x := by
  rintro ⟨x, hx, hpx⟩
  exact List.filter_eq_nil_iff.mp h x hx hpx

theorem filter_ne_nil_exists {α : Type} {p : α → Bool} {l : List α}
    (h : l.filter p ≠ []) : ∃ x ∈ l, p x := by
  rcases List.exists_mem_of_ne_nil _ h with ⟨x, hx⟩
  rcases List.mem_filter.mp hx with ⟨h1, h2⟩
  exact ⟨x, h1, h2⟩

/-! ### Claim theorems -/

/-- C1: for every input text that is empty or whitespace-only (Python strip
yields the empty string), `analyze_text` returns no suggestions and an
all-zero score bundle, independently of the grammar-service outcome (so the
grammar adapter's result is never consulted and the heuristic analyzer's
suggestions never appear). -/
theorem analyze_text_empty_input (text : String) (outcome : GrammarOutcome)
    (h : pyStrip text = "") :
    analyze_text text outcome
      = { suggestions := []
        , scores := { grammar := 0, readability := 0, tone := 0, plagiarism := 0, overall := 0 } } := by
  simp [analyze_text, h, zeroScores]

/-- Witness for C1 at a concrete whitespace-only input. -/
theorem analyze_text_empty_input_witness :
    pyStrip ("  ") = "" ∧
      analyze_text ("  ") GrammarOutcome.exception
        = { suggestions := []
          , scores := { grammar := 0, readability := 0, tone := 0, plagiarism := 0, overall := 0 } } :=
  ⟨by decide, analyze_text_empty_input ("  ") GrammarOutcome.exception (by decide)⟩

/-- C2 (code bug): on the exception path the fallback suggestion is appended
with the current id but the id counter is not advanced (`suggestion_id += 1`
is missing after the fallback append in `main.py`), so for a 26-word
sentence with the grammar service raising, the response carries the duplicate
ids `[1, 1]` instead of the claimed unique sequential ids. -/
theorem analyze_text_duplicate_ids :
    ((analyze_text ("w w w w w w w w w w w w w w w w w w w w w w w w w w")
        GrammarOutcome.exception).suggestions.map (fun s => s.id)) = [1, 1] := by
  decide

/-- C3: for every non-empty input where the grammar-service call raises, the
analysis still succeeds and its suggestion list contains exactly one
suggestion of kind `info` — with category `System`, severity `low` and span
`{start := 0, end := 0}` — and no suggestion of kind `grammar`. -/
theorem analyze_text_exception_fallback (text : String) (h : pyStrip text ≠ "") :
    ((analyze_text text GrammarOutcome.exception).suggestions.filter
        (fun s => s.type == "info"))
        = [{ id := 1
           , type := "info"
           , text := "Grammar check temporarily unavailable"
           , position := ⟨0, 0⟩
           , severity := "low"
           , category := "System" }] ∧
      ((analyze_text text GrammarOutcome.exception).suggestions.filter
        (fun s => s.type == "grammar")) = [] := by
  have hs : (analyze_text text GrammarOutcome.exception).suggestions
      = [fallbackSuggestion 1] ++ analyze_readability text 1 := by
    simp [analyze_text, h]
  rw [hs]
  constructor
  · rw [List.filter_append, analyze_readability_filter_ne text 1 ("info") (by decide)]
    rfl
  · rw [List.filter_append, analyze_readability_filter_ne text 1 ("grammar") (by decide)]
    rfl

/-- Witness for C3 at a concrete non-empty input. -/
theorem analyze_text_exception_fallback_witness :
    pyStrip ("hello") ≠ "" ∧
      ((analyze_text ("hello") GrammarOutcome.exception).suggestions.filter
          (fun s => s.type == "grammar")) = [] :=
  ⟨by decide, (analyze_text_exception_fallback ("hello") (by decide)).2⟩

/-- C4: for every non-empty input where the grammar service answers with a
non-200 status and no exception is raised, the response contains neither a
fallback `info` suggestion nor any `grammar` suggestion — the status is only
logged, and solely a caught exception triggers the fallback. -/
theorem analyze_text_non200_no_fallback (text : String) (status : Nat)
    (ms : List LTMatch) (ht : pyStrip text ≠ "") (hs : status ≠ 200) :
    ((analyze_text text (GrammarOutcome.response status ms)).suggestions.filter
        (fun s => s.type == "info")) = [] ∧
      ((analyze_text text (GrammarOutcome.response status ms)).suggestions.filter
        (fun s => s.type == "grammar")) = [] := by
  have hss : (analyze_text text (GrammarOutcome.response status ms)).suggestions
      = analyze_readability text 1 := by
    simp [analyze_text, ht, hs]
  rw [hss]
  exact ⟨analyze_readability_filter_ne text 1 ("info") (by decide),
    analyze_readability_filter_ne text 1 ("grammar") (by decide)⟩

/-- Witness for C4 at a concrete non-empty input and status 500. -/
theorem analyze_text_non200_no_fallback_witness :
    pyStrip ("hello") ≠ "" ∧ (500 : Nat) ≠ 200 ∧
      ((analyze_text ("hello") (GrammarOutcome.response 500 [])).suggestions.filter
        (fun s => s.type == "info")) = [] :=
  ⟨by decide, by decide,
    (analyze_text_non200_no_fallback ("hello") 500 [] (by decide) (by decide)).1⟩

/-- C5: for every non-empty input where the grammar service returns HTTP 200
with a list of matches, the response contains exactly one `grammar`
suggestion per match (in order); the k-th one has span start = the match's
offset (default 0) and span end = offset + length (default 0), hence
end ≥ start; severity `high` when the rule category id is TYPOS or GRAMMAR,
`low` when STYLE, `medium` otherwise; and category = the rule category's
display name, or `Grammar` when absent. -/
theorem analyze_text_success_matches (text : String) (ms : List LTMatch)
    (ht : pyStrip text ≠ "") :
    (((analyze_text text (GrammarOutcome.response 200 ms)).suggestions.filter
        (fun s => s.type == "grammar")).length = ms.length) ∧
      (∀ s ∈ (analyze_text text (GrammarOutcome.response 200 ms)).suggestions.filter
          (fun s => s.type == "grammar"),
        s.position.start ≤ s.position.«end») ∧
      ∀ k : Nat,
        ((((analyze_text text (GrammarOutcome.response 200 ms)).suggestions.filter
            (fun s => s.type == "grammar"))[k]?).map (fun s => s.position.start)
          = ms[k]?.map (fun m => m.offset.getD 0)) ∧
        ((((analyze_text text (GrammarOutcome.response 200 ms)).suggestions.filter
            (fun s => s.type == "grammar"))[k]?).map (fun s => s.position.«end»)
          = ms[k]?.map (fun m => m.offset.getD 0 + m.length.getD 0)) ∧
        ((((analyze_text text (GrammarOutcome.response 200 ms)).suggestions.filter
            (fun s => s.type == "grammar"))[k]?).map (fun s => s.severity)
          = ms[k]?.map (fun m =>
              if m.categoryId = some ("TYPOS") ∨ m.categoryId = some ("GRAMMAR") then "high"
              else if m.categoryId = some ("STYLE") then "low" else "medium")) ∧
        ((((analyze_text text (GrammarOutcome.response 200 ms)).suggestions.filter
            (fun s => s.type == "grammar"))[k]?).map (fun s => s.category)
          = ms[k]?.map (fun m => m.categoryName.getD ("Grammar"))) := by
  have hss : (analyze_text text (GrammarOutcome.response 200 ms)).suggestions
      = grammarSuggestions 1 ms ++ analyze_readability text (1 + ms.length) := by
    simp [analyze_text, ht]
  have hgs : (analyze_text text (GrammarOutcome.response 200 ms)).suggestions.filter
      (fun s => s.type == "grammar") = grammarSuggestions 1 ms := by
    rw [hss, List.filter_append,
      analyze_readability_filter_ne text _ ("grammar") (by decide), List.append_nil,
      List.filter_eq_self.mpr]
    intro s hsm
    simp [mem_grammarSuggestions_type hsm]
  refine ⟨?_, ?_, ?_⟩
  · rw [hgs, grammarSuggestions_length]
  · intro s hs
    rw [hgs] at hs
    exact mem_grammarSuggestions_span hs
  · intro k
    rw [hgs, grammarSuggestions_getElem?]
    cases hmk : ms[k]? with
    | none => simp
    | some m =>
      refine ⟨?_, ?_, ?_, ?_⟩ <;>
        simp [matchToSuggestion, severityOf_claim_form]

/-- Witness for C5 at a concrete non-empty input and one concrete match. -/
theorem analyze_text_success_matches_witness :
    pyStrip ("hello") ≠ "" ∧
      (((analyze_text ("hello")
          (GrammarOutcome.response 200
            [⟨some 3, some 4, some ("msg"), some ("TYPOS"), some ("Spelling")⟩])).suggestions.filter
          (fun s => s.type == "grammar")).length
        = [(⟨some 3, some 4, some ("msg"), some ("TYPOS"), some ("Spelling")⟩ : LTMatch)].length) :=
  ⟨by decide,
    (analyze_text_success_matches ("hello")
      [⟨some 3, some 4, some ("msg"), some ("TYPOS"), some ("Spelling")⟩] (by decide)).1⟩

/-- C6: for every text and suggestion list, the aggregator's grammar score
equals `max(60, 100 - 8 * n)` where `n` counts the suggestions of kind
`grammar` with severity `high`; hence the grammar score always lies in
`[60, 100]`. -/
theorem calculate_scores_grammar_formula (text : String) (ss : List Suggestion) :
    ((calculate_scores text ss).grammar : Int)
        = max 60 (100 - 8 *
            ((ss.filter (fun s => s.type == "grammar" && s.severity == "high")).length : Int))
      ∧ 60 ≤ (calculate_scores text ss).grammar
      ∧ (calculate_scores text ss).grammar ≤ 100 := by
  have hg : (calculate_scores text ss).grammar
      = max 60 (100 -
          (ss.filter (fun s => s.type == "grammar" && s.severity == "high")).length * 8) := rfl
  obtain ⟨h1, h2⟩ := grammar_score_bounds text ss
  refine ⟨?_, h1, h2⟩
  rw [hg]
  omega

/-- C7: the aggregator's readability score is 50 when there is no non-empty
period-delimited sentence, and otherwise is determined by comparing the
average words per sentence (word count divided by sentence count) with the
thresholds 15, 20 and 25 — stated equivalently with cross-multiplied natural
thresholds. -/
theorem calculate_scores_readability_formula (text : String) (ss : List Suggestion) :
    (calculate_scores text ss).readability
      = (if (sentencesOf text).length = 0 then 50
         else if (pySplit text).length ≤ 15 * (sentencesOf text).length then 95
         else if (pySplit text).length ≤ 20 * (sentencesOf text).length then 85
         else if (pySplit text).length ≤ 25 * (sentencesOf text).length then 75
         else 65) := by
  have hr : (calculate_scores text ss).readability
      = (if 0 < (sentencesOf text).length then
          if ((pySplit text).length : ℚ) / ((sentencesOf text).length : ℚ) ≤ 15 then 95
          else if ((pySplit text).length : ℚ) / ((sentencesOf text).length : ℚ) ≤ 20 then 85
          else if ((pySplit text).length : ℚ) / ((sentencesOf text).length : ℚ) ≤ 25 then 75
          else 65
        else 50) := rfl
  rw [hr]
  rcases Nat.eq_zero_or_pos (sentencesOf text).length with h0 | hpos
  · simp [h0]
  · have hne : (sentencesOf text).length ≠ 0 := Nat.pos_iff_ne_zero.mp hpos
    have hsc : (0 : ℚ) < ((sentencesOf text).length : ℚ) := by exact_mod_cast hpos
    have e15 : (((pySplit text).length : ℚ) / ((sentencesOf text).length : ℚ) ≤ 15)
        ↔ ((pySplit text).length ≤ 15 * (sentencesOf text).length) := by
      rw [div_le_iff₀ hsc]
      exact_mod_cast Iff.rfl
    have e20 : (((pySplit text).length : ℚ) / ((sentencesOf text).length : ℚ) ≤ 20)
        ↔ ((pySplit text).length ≤ 20 * (sentencesOf text).length) := by
      rw [div_le_iff₀ hsc]
      exact_mod_cast Iff.rfl
    have e25 : (((pySplit text).length : ℚ) / ((sentencesOf text).length : ℚ) ≤ 25)
        ↔ ((pySplit text).length ≤ 25 * (sentencesOf text).length) := by
      rw [div_le_iff₀ hsc]
      exact_mod_cast Iff.rfl
    rw [if_pos hpos, if_neg hne]
    simp only [e15, e20, e25]

/-- C8: the heuristic analyzer emits exactly one severity-`medium`
(long-sentence) suggestion when some sentence has more than 25 words and none
otherwise, exactly one severity-`low` (long-paragraph) suggestion when some
paragraph has more than 150 words and none otherwise, and every emitted
suggestion has kind `readability`, category `Readability`, a span covering
the whole text, and one of those two severities — so at most one suggestion
of each kind regardless of how many long sentences or paragraphs exist. -/
theorem analyze_readability_formula (text : String) (start_id : Nat) :
    ((analyze_readability text start_id).filter (fun s => s.severity == "medium")).length
        = (if ∃ s ∈ sentencesOf text, 25 < (pySplit s).length then 1 else 0)
      ∧ ((analyze_readability text start_id).filter (fun s => s.severity == "low")).length
        = (if ∃ p ∈ paragraphsOf text, 150 < (pySplit p).length then 1 else 0)
      ∧ (analyze_readability text start_id).all
          (fun s => s.type == "readability" && s.category == "Readability"
            && s.position.start == 0 && s.position.«end» == text.length
            && (s.severity == "medium" || s.severity == "low")) = true := by
  by_cases hs : (sentencesOf text).filter (fun s => 25 < (pySplit s).length) = []
  · have hnex : ¬ ∃ s ∈ sentencesOf text, 25 < (pySplit s).length := by
      have := filter_nil_not_exists hs
      simpa using this
    by_cases hp : (paragraphsOf text).filter (fun p => 150 < (pySplit p).length) = []
    · have hnexp : ¬ ∃ p ∈ paragraphsOf text, 150 < (pySplit p).length := by
        have := filter_nil_not_exists hp
        simpa using this
      simp [analyze_readability, hs, hp, hnex, hnexp]
    · have hexp : ∃ p ∈ paragraphsOf text, 150 < (pySplit p).length := by
        have := filter_ne_nil_exists hp
        simpa using this
      simp [analyze_readability, hs, hp, hnex, hexp]
  · have hex : ∃ s ∈ sentencesOf text, 25 < (pySplit s).length := by
      have := filter_ne_nil_exists hs
      simpa using this
    by_cases hp : (paragraphsOf text).filter (fun p => 150 < (pySplit p).length) = []
    · have hnexp : ¬ ∃ p ∈ paragraphsOf text, 150 < (pySplit p).length := by
        have := filter_nil_not_exists hp
        simpa using this
      simp [analyze_readability, hs, hp, hex, hnexp]
    · have hexp : ∃ p ∈ paragraphsOf text, 150 < (pySplit p).length := by
        have := filter_ne_nil_exists hp
        simpa using this
      simp [analyze_readability, hs, hp, hex, hexp]

/-- C9: in every bundle produced by the aggregator, the overall score is the
integer average of the four component scores — truncated toward zero, stated
both as natural division and as `Int.tdiv` — and all five scores lie in
`[0, 100]` (they are naturals, so 0 is a lower bound by construction). -/
theorem calculate_scores_overall_formula (text : String) (ss : List Suggestion) :
    (calculate_scores text ss).overall
        = ((calculate_scores text ss).grammar + (calculate_scores text ss).readability
            + (calculate_scores text ss).tone + (calculate_scores text ss).plagiarism) / 4
      ∧ ((calculate_scores text ss).overall : Int)
          = Int.tdiv (((calculate_scores text ss).grammar : Int)
              + ((calculate_scores text ss).readability : Int)
              + ((calculate_scores text ss).tone : Int)
              + ((calculate_scores text ss).plagiarism : Int)) 4
      ∧ (calculate_scores text ss).grammar ≤ 100
      ∧ (calculate_scores text ss).readability ≤ 100
      ∧ (calculate_scores text ss).tone ≤ 100
      ∧ (calculate_scores text ss).plagiarism ≤ 100
      ∧ (calculate_scores text ss).overall ≤ 100 := by
  obtain ⟨hg1, hg2, hr1, hr2, hT, hP, ho1, ho2⟩ := calculate_scores_bundle_bounds text ss
  exact ⟨rfl, rfl, hg2, hr2, by omega, by omega, ho2⟩

/-- C10: for every non-empty (not whitespace-only) input, whatever the
grammar-service outcome, the returned bundle satisfies readability ≥ 50,
grammar ≥ 60, tone = 85, plagiarism = 95 and overall ≥ 72; in particular
every score dimension is positive, so an all-zero bundle only arises from the
empty-input short circuit. -/
theorem analyze_text_nonempty_scores (text : String) (outcome : GrammarOutcome)
    (h : pyStrip text ≠ "") :
    50 ≤ (analyze_text text outcome).scores.readability ∧
      (analyze_text text outcome).scores.readability ≤ 100 ∧
      60 ≤ (analyze_text text outcome).scores.grammar ∧
      (analyze_text text outcome).scores.tone = 85 ∧
      (analyze_text text outcome).scores.plagiarism = 95 ∧
      72 ≤ (analyze_text text outcome).scores.overall ∧
      0 < (analyze_text text outcome).scores.grammar ∧
      0 < (analyze_text text outcome).scores.readability ∧
      0 < (analyze_text text outcome).scores.tone ∧
      0 < (analyze_text text outcome).scores.plagiarism ∧
      0 < (analyze_text text outcome).scores.overall := by
  have hsc : (analyze_text text outcome).scores
      = calculate_scores text ((analyze_text text outcome).suggestions) := by
    simp [analyze_text, h]
  obtain ⟨hg1, hg2, hr1, hr2, hT, hP, ho1, ho2⟩ :=
    calculate_scores_bundle_bounds text ((analyze_text text outcome).suggestions)
  rw [← hsc] at hg1 hg2 hr1 hr2 hT hP ho1 ho2
  exact ⟨hr1, hr2, hg1, hT, hP, ho1, by omega, by omega, by omega, by omega, by omega⟩

/-- Witness for C10 at a concrete non-empty input. -/
theorem analyze_text_nonempty_scores_witness :
    pyStrip ("hello") ≠ "" ∧
      72 ≤ (analyze_text ("hello") GrammarOutcome.exception).scores.overall :=
  ⟨by decide,
    (analyze_text_nonempty_scores ("hello") GrammarOutcome.exception
        (by decide)).2.2.2.2.2.1⟩

end WritingAssistant
